import Mathlib

/-!
Shallow embedding of `bulkwebhook/bulk_webhook/doctype/bulk_webhook/bulk_webhook.py`
(the webhook delivery engine of av-dev2/bulk-webhook).

Python values that flow through the payload pipeline are modelled by `PyVal`;
external collaborators (the report/method/script producers, jinja template
rendering composed with `json.loads`, HMAC-SHA256/base64, global settings,
and the network) are modelled as an `Env` of opaque functions, exactly as the
source treats them as opaque calls.
-/

/-- Python values reachable in the payload pipeline.  `datetimeLike s` stands
for a `datetime.datetime` / `datetime.date` / `datetime.time` /
`datetime.timedelta` object whose `str()` is `s`. -/
inductive PyVal where
  | null
  | bool (b : Bool)
  | int (n : Int)
  | str (s : String)
  | list (xs : List PyVal)
  | dict (kvs : List (String × PyVal))
  | datetimeLike (srepr : String)

/-- Python truthiness (`bool(v)`) for the values of `PyVal`. -/
def pyTruthy : PyVal → Bool
  | .null => false
  | .bool b => b
  | .int n => n != 0
  | .str s => s != ""
  | .list xs => !xs.isEmpty
  | .dict kvs => !kvs.isEmpty
  | .datetimeLike _ => true

/-- Truthiness of an optional value; `none` models Python `None`. -/
def pyTruthyOpt : Option PyVal → Bool
  | none => false
  | some v => pyTruthy v

/-- JSON string literal as Python's `json.dumps` prints it (the strings in
this development contain no characters that need escaping). -/
def jsonQuote (s : String) : String := "\"" ++ s ++ "\""

mutual

/-- Output of `json.dumps(v, default=str)`: Python's default separators are
a comma-space and a colon-space, and `default=str` turns datetime-like
objects into their `str()` form. -/
def json_dumps_default_str : PyVal → String
  | .null => "null"
  | .bool true => "true"
  | .bool false => "false"
  | .int n => toString n
  | .str s => jsonQuote s
  | .datetimeLike r => jsonQuote r
  | .list xs => "[" ++ dumpsJoinList xs ++ "]"
  | .dict kvs => "\x7b" ++ dumpsJoinDict kvs ++ "\x7d"

/-- Comma-joined serialization of a JSON array body. -/
def dumpsJoinList : List PyVal → String
  | [] => ""
  | [x] => json_dumps_default_str x
  | x :: y :: xs => json_dumps_default_str x ++ ", " ++ dumpsJoinList (y :: xs)

/-- Comma-joined serialization of a JSON object body. -/
def dumpsJoinDict : List (String × PyVal) → String
  | [] => ""
  | [kv] => jsonQuote kv.1 ++ ": " ++ json_dumps_default_str kv.2
  | kv :: kv2 :: kvs =>
      jsonQuote kv.1 ++ ": " ++ json_dumps_default_str kv.2 ++ ", "
        ++ dumpsJoinDict (kv2 :: kvs)

end

mutual

/-- Whether a value contains a datetime-like object, i.e. whether
`json.dumps` without `default=` would raise `TypeError` on it. -/
def containsDatetime : PyVal → Bool
  | .null => false
  | .bool _ => false
  | .int _ => false
  | .str _ => false
  | .datetimeLike _ => true
  | .list xs => containsDatetimeList xs
  | .dict kvs => containsDatetimeDict kvs

/-- List version of `containsDatetime`. -/
def containsDatetimeList : List PyVal → Bool
  | [] => false
  | x :: xs => containsDatetime x || containsDatetimeList xs

/-- Dict version of `containsDatetime`. -/
def containsDatetimeDict : List (String × PyVal) → Bool
  | [] => false
  | kv :: kvs => containsDatetime kv.2 || containsDatetimeDict kvs

end

/-- Output of plain `json.dumps(v)` (no `default=`): identical to the
`default=str` form except that it raises `TypeError` (modelled as `none`)
when a non-serializable datetime-like value is present. -/
def json_dumps_strict (v : PyVal) : Option String :=
  if containsDatetime v then none else some (json_dumps_default_str v)

/-- One record produced by a source: a Python dict. -/
abbrev Record := List (String × PyVal)

/-- Datetime-to-string conversion loop of `get_webhook_data`: each record is
copied and its top-level datetime/date/time/timedelta values are replaced by
`str(value)`; nested values are left untouched. -/
def stringify_record (rec : Record) : Record :=
  rec.map (fun kv =>
    match kv.2 with
    | .datetimeLike r => (kv.1, .str r)
    | v => (kv.1, v))

/-- The `source` select field of a Bulk Webhook document. -/
inductive Source where
  | report
  | method
  | script
deriving DecidableEq

/-- One row of a headers child table; `key`/`value` may be missing. -/
structure HeaderEntry where
  key : Option String
  value : Option String
deriving DecidableEq

/-- The fields of a Bulk Webhook document used by the delivery engine.
An empty `request_url` models a falsy/unset URL and `webhook_json = none`
models a falsy/absent template. -/
structure Webhook where
  source : Source
  request_url : String
  request_method : String
  enable_security : Bool
  webhook_secret : String
  webhook_json : Option String
  webhook_headers : List HeaderEntry

/-- Outcome of one `requests.request` call: either a response (with its
truthiness `ok`, which also decides whether `raise_for_status` raises and
whether `log_request`'s `if res` sees it as truthy) or a transport-level
exception raised before any response object existed. -/
inductive Attempt where
  | response (ok : Bool) (body : String)
  | transportError (e : String)
deriving DecidableEq

/-- External collaborators of the engine.  `produce src n` is what the
source's producer (report/method/script execution) returns at its `n`-th
invocation inside one job — producers are opaque and may return different
data on each call.  `renderLoads tmpl records` is
`json.loads(frappe.render_template(tmpl, get_context(records)))`, with
`none` modelling a `json.loads` failure.  `hmacSha256B64 secret msg` is
`base64.b64encode(hmac.new(secret, msg, sha256).digest())`.  `attempt i` is
the network's behaviour on the `i`-th HTTP attempt. -/
structure Env where
  produce : Source → Nat → Option (List Record)
  renderLoads : String → List Record → Option PyVal
  hmacSha256B64 : String → String → String
  settingsUrl : String
  settingsHeaders : List HeaderEntry
  attempt : Nat → Attempt

/-- Embedding of `get_webhook_data`.  `idx` is the number of producer
invocations that already happened in this job (the function is called more
than once per job).  Note the faithful bug: `data` is initialized to `{}`
and, when no template is configured, is returned unchanged — the computed
`data_list` is used only inside the template branch. -/
def get_webhook_data (w : Webhook) (env : Env) (idx : Nat) :
    Except String (Option PyVal) :=
  match env.produce w.source idx with
  | none => .ok none
  | some recs =>
      if recs.isEmpty then .ok none
      else
        let data_list := recs.map stringify_record
        match w.webhook_json with
        | some tmpl =>
            match env.renderLoads tmpl data_list with
            | some parsed => .ok (some parsed)
            | none => .error "json.loads: template output is not valid JSON"
        | none => .ok (some (.dict []))

/-- The module-level constant `WEBHOOK_SECRET_HEADER`. -/
def WEBHOOK_SECRET_HEADER : String := "X-Frappe-Webhook-Signature"

/-- Python dict assignment `d[k] = v` on an insertion-ordered
association list: overwrite in place if the key exists, else append. -/
def dictSet (hs : List (String × String)) (k v : String) :
    List (String × String) :=
  if hs.any (fun kv => kv.1 == k) then
    hs.map (fun kv => if kv.1 == k then (k, v) else kv)
  else hs ++ [(k, v)]

/-- The guard `if h.get("key") and h.get("value")` of the header loops: a row
contributes a pair exactly when both fields are present and truthy. -/
def entryKV (h : HeaderEntry) : Option (String × String) :=
  match h.key, h.value with
  | some k, some v => if k != "" && v != "" then some (k, v) else none
  | _, _ => none

/-- One of the two header loops of `get_webhook_headers`: fold the valid
rows into the dict with `headers[h.get("key")] = h.get("value")`. -/
def applyEntries (hs : List (String × String)) (entries : List HeaderEntry) :
    List (String × String) :=
  entries.foldl (fun acc h =>
    match entryKV h with
    | some kv => dictSet acc kv.1 kv.2
    | none => acc) hs

/-- The `if webhook.enable_security` block of `get_webhook_headers`: a fresh
`get_webhook_data` call (producer invocation 0 of the job), serialized with
plain `json.dumps(data)` (no `default=`), HMAC-signed and stored under
`WEBHOOK_SECRET_HEADER`.  `none` models an exception escaping the block
(a template/`json.loads` error or a `TypeError` from `json.dumps`). -/
def signatureBase (w : Webhook) (env : Env) : Option (List (String × String)) :=
  match get_webhook_data w env 0 with
  | .error _ => none
  | .ok data =>
      match json_dumps_strict (data.getD .null) with
      | none => none
      | some s =>
          some (dictSet [] WEBHOOK_SECRET_HEADER (env.hmacSha256B64 w.webhook_secret s))

/-- Embedding of `get_webhook_headers`.  The second component counts the
producer invocations the call consumed (1 when security is enabled, else 0).
`none` in the first component models an exception escaping the function. -/
def get_webhook_headers (w : Webhook) (env : Env) :
    Option (List (String × String)) × Nat :=
  let base := if w.enable_security then signatureBase w env else some []
  let calls := if w.enable_security then 1 else 0
  match base with
  | none => (none, calls)
  | some hs =>
      if !w.webhook_headers.isEmpty then (some (applyEntries hs w.webhook_headers), calls)
      else (some (applyEntries hs env.settingsHeaders), calls)

/-- Errors that can terminate the retry loop: `raise_for_status` on a
non-ok response (re-raised after the third failure), a re-raised transport
exception, or the `UnboundLocalError`/`NameError` from `log_request(url,
headers, data, r)` when `r` was never assigned. -/
inductive PyErr where
  | httpError (body : String)
  | transport (e : String)
  | unboundLocalR
deriving DecidableEq

/-- How the `for i in range(3)` loop ends.  `finished` is the fall-through
end of the range, which is unreachable because iteration 2 always breaks or
raises. -/
inductive LoopExit where
  | success (body : String)
  | raised (e : PyErr)
  | finished
deriving DecidableEq

/-- Observable trace of the retry loop.  `logs` holds the `response` field
of each Webhook Request Log row in write order (the other logged fields —
url, headers, data — are the same for every row of one job); `sleeps` the
arguments of the `sleep` calls; `attempts` the number of
`requests.request` calls made. -/
structure LoopResult where
  logs : List (Option String)
  sleeps : List Nat
  attempts : Nat
  exit : LoopExit
deriving DecidableEq

/-- One unrolling step of the retry loop.  `r` is the current value of the
local `r` (`none` = never assigned).  On a response, `r` is rebound before
`raise_for_status`; `log_request` logs `json.dumps(res.json())` only when
`res` is truthy (`Response.__bool__` is `ok`), else `None`.  On a transport
exception `r` keeps its previous value, and `log_request` either crashes on
the unbound `r` or logs the stale previous response's (falsy) state. -/
def loopGo (att : Nat → Attempt) :
    Nat → Nat → Option (Bool × String) → List (Option String) → List Nat → LoopResult
  | 0, i, _, logs, sleeps => ⟨logs, sleeps, i, .finished⟩
  | fuel + 1, i, r, logs, sleeps =>
      match att i with
      | .response true body => ⟨logs ++ [some body], sleeps, i + 1, .success body⟩
      | .response false body =>
          let logs := logs ++ [none]
          let sleeps := sleeps ++ [3 * i + 1]
          if i != 2 then loopGo att fuel (i + 1) (some (false, body)) logs sleeps
          else ⟨logs, sleeps, i + 1, .raised (.httpError body)⟩
      | .transportError e =>
          match r with
          | none => ⟨logs, sleeps, i + 1, .raised .unboundLocalR⟩
          | some rv =>
              let logs := logs ++ [if rv.1 then some rv.2 else none]
              let sleeps := sleeps ++ [3 * i + 1]
              if i != 2 then loopGo att fuel (i + 1) (some rv) logs sleeps
              else ⟨logs, sleeps, i + 1, .raised (.transport e)⟩

/-- The `for i in range(3)` retry loop of `enqueue_bulk_webhook`. -/
def webhookLoop (att : Nat → Attempt) : LoopResult :=
  loopGo att 3 0 none [] []

/-- The HTTP request issued by the loop (identical on every attempt). -/
structure SentRequest where
  method : String
  url : String
  body : String
  headers : List (String × String)
deriving DecidableEq

/-- How a delivery job ends before or at its send phase. -/
inductive JobOutcome where
  | configError (e : String)
  | noData
  | sent (req : SentRequest) (loop : LoopResult)
deriving DecidableEq

/-- Result of one delivery job, with the number of producer invocations the
job performed. -/
structure JobRun where
  producerCalls : Nat
  outcome : JobOutcome
deriving DecidableEq

/-- Embedding of `enqueue_bulk_webhook`: resolve headers (which may itself
invoke the producer for the signature), produce the body payload with a
second `get_webhook_data` call, return early when the payload is falsy,
resolve the URL against the global settings fallback, serialize the body
with `json.dumps(data, default=str)` and run the retry loop. -/
def enqueue_bulk_webhook (w : Webhook) (env : Env) : JobRun :=
  match get_webhook_headers w env with
  | (none, calls) => ⟨calls, .configError "get_webhook_headers raised"⟩
  | (some headers, hcalls) =>
      match get_webhook_data w env hcalls with
      | .error e => ⟨hcalls + 1, .configError e⟩
      | .ok data =>
          if !pyTruthyOpt data then ⟨hcalls + 1, .noData⟩
          else
            let url := if w.request_url != "" then w.request_url else env.settingsUrl
            let body := json_dumps_default_str (data.getD .null)
            ⟨hcalls + 1, .sent ⟨w.request_method, url, body, headers⟩ (webhookLoop env.attempt)⟩

/-- One row of the `filter_meta` table of `validate_mandatory_fields`. -/
structure FilterMeta where
  fieldname : String
  label : String
  reqd : Bool
deriving DecidableEq

/-- Python `filters.get(fieldname)`: the stored value, or `None` when the
key is absent. -/
def lookupFilter (filters : List (String × PyVal)) (k : String) : PyVal :=
  match filters.find? (fun kv => kv.1 == k) with
  | some kv => kv.2
  | none => .null

/-- Embedding of `BulkWebhook.validate_mandatory_fields`: collect the labels
of required filter-meta rows whose supplied value is falsy (`not
filters.get(...)`), and raise (`some throw_list`) when any were collected;
`none` means validation passes. -/
def validate_mandatory_fields (filters : List (String × PyVal))
    (filter_meta : List FilterMeta) : Option (List String) :=
  let throw_list := filter_meta.filterMap (fun m =>
    if m.reqd && !pyTruthy (lookupFilter filters m.fieldname) then some m.label
    else none)
  if !throw_list.isEmpty then some throw_list else none

/-- Values living in the script sandbox's namespace, as classified by the
`isinstance` chain of `get_autocompletion_items.get_keys`. -/
inductive SandboxValue where
  | exceptionSubclass
  | module
  | functionOrMethod
  | typeClass
  | mapping (entries : List (String × SandboxValue))
  | plainValue

/-- The score branch of `get_keys`: Exception subclasses score 0 (checked
first), then `ModuleType` 10, `FunctionType`/`MethodType` 9, `type` 8,
`dict` 7, anything else 6. -/
def scoreOf : SandboxValue → Nat
  | .exceptionSubclass => 0
  | .module => 10
  | .functionOrMethod => 9
  | .typeClass => 8
  | .mapping _ => 7
  | .plainValue => 6

/-- Python's `key.startswith("_")`: whether the first character is an
underscore. -/
def startsWithUnderscore (s : String) : Bool :=
  match s.data with
  | [] => false
  | c :: _ => c == '_'

mutual

/-- Embedding of the inner `get_keys` of `get_autocompletion_items`:
underscore-keys are skipped, truthy mappings are recursed into with a dotted
key expansion (except `form_dict`, kept opaque at score 7), everything else
is scored by the `isinstance` chain. -/
def get_keys : List (String × SandboxValue) → List (String × Nat)
  | [] => []
  | (key, value) :: rest =>
      (if startsWithUnderscore key then [] else get_keys_entry key value) ++ get_keys rest

/-- Handling of one namespace entry inside `get_keys`. -/
def get_keys_entry (key : String) : SandboxValue → List (String × Nat)
  | .mapping entries =>
      if entries.isEmpty then [(key, scoreOf (.mapping entries))]
      else if key == "form_dict" then [("form_dict", 7)]
      else (get_keys entries).map (fun p => (key ++ "." ++ p.1, p.2))
  | v => [(key, scoreOf v)]

end

/-- Whether an attempt's `requests.request` call yielded a success status
(i.e. `raise_for_status` passes). -/
def attemptOk : Attempt → Bool
  | .response ok _ => ok
  | .transportError _ => false

/-- The exception the `except` branch catches for a failed attempt: the
`HTTPError` of `raise_for_status` on a non-ok response, or the transport
exception itself. -/
def attemptErr : Attempt → PyErr
  | .response _ body => .httpError body
  | .transportError e => .transport e

/-- Number of HTTP attempts a finished job made. -/
def jobHttpAttempts : JobRun → Nat
  | ⟨_, .sent _ L⟩ => L.attempts
  | _ => 0

/-- Lookup in a resolved header mapping. -/
def lookupHeader (hs : List (String × String)) (k : String) : Option String :=
  (hs.find? (fun kv => kv.1 == k)).map (fun kv => kv.2)

/-- Body of the HTTP request a job sent, if it sent one. -/
def sentBody : JobRun → Option String
  | ⟨_, .sent req _⟩ => some req.body
  | _ => none

/-- Signature header value of the HTTP request a job sent, if any. -/
def sentHeaderSig : JobRun → Option String
  | ⟨_, .sent req _⟩ => lookupHeader req.headers WEBHOOK_SECRET_HEADER
  | _ => none

/-- A Method-source config with no template configured. -/
def wNoTemplate : Webhook :=
  { source := .method, request_url := "https://example.test/hook",
    request_method := "POST", enable_security := false, webhook_secret := "",
    webhook_json := none, webhook_headers := [] }

/-- An environment whose method producer always returns the single record
`[{"a": 1}]`. -/
def envMethodA1 : Env :=
  { produce := fun _ _ => some [[("a", .int 1)]],
    renderLoads := fun _ _ => none,
    hmacSha256B64 := fun _ m => m,
    settingsUrl := "", settingsHeaders := [],
    attempt := fun _ => .response true "ok" }

/-- A security-enabled config with a template configured. -/
def wSigned : Webhook :=
  { source := .method, request_url := "https://example.test/hook",
    request_method := "POST", enable_security := true, webhook_secret := "sec",
    webhook_json := some "T", webhook_headers := [] }

/-- An environment whose method producer returns `[{"a": 1}]` on its first
invocation and `[{"a": 2}]` afterwards (producers are opaque and may change
between calls), whose template renders the record list itself, and whose
HMAC function is injective in the message. -/
def envTwoCalls : Env :=
  { produce := fun _ idx => if idx = 0 then some [[("a", .int 1)]] else some [[("a", .int 2)]],
    renderLoads := fun _ data_list => some (.list (data_list.map PyVal.dict)),
    hmacSha256B64 := fun secret msg => "HMAC-SHA256-B64(" ++ secret ++ "," ++ msg ++ ")",
    settingsUrl := "", settingsHeaders := [],
    attempt := fun _ => .response true "ok" }

/-- A network where every attempt raises a transport exception before any
response exists. -/
def attConnRefused : Nat → Attempt := fun _ => .transportError "ConnectionError"

/-- A network returning HTTP 500 on the first two attempts and success on
the third. -/
def attTwo500 : Nat → Attempt := fun i =>
  if i < 2 then .response false "Internal Server Error" else .response true "okbody"

/-- A network returning a failing status on every attempt. -/
def attAll500 : Nat → Attempt := fun _ => .response false "e"

/-- A config with its own (partially invalid) header rows and no security. -/
def wOwnHeaders : Webhook :=
  { source := .method, request_url := "https://example.test/hook",
    request_method := "POST", enable_security := false, webhook_secret := "",
    webhook_json := none,
    webhook_headers := [⟨some "A", some "1"⟩, ⟨none, some "2"⟩] }

/-- An environment whose global settings define one header row. -/
def envGlobalHeaders : Env :=
  { produce := fun _ _ => some [[("a", .int 1)]],
    renderLoads := fun _ _ => none,
    hmacSha256B64 := fun _ m => m,
    settingsUrl := "", settingsHeaders := [⟨some "G", some "g"⟩],
    attempt := fun _ => .response true "ok" }

/-- A security-enabled config with no header rows of its own. -/
def wSecOnly : Webhook :=
  { source := .method, request_url := "https://example.test/hook",
    request_method := "POST", enable_security := true, webhook_secret := "k",
    webhook_json := some "T", webhook_headers := [] }

/-- An environment for `wSecOnly`: the template renders to the JSON value
`7` and the HMAC function tags secret and message. -/
def envSecOnly : Env :=
  { produce := fun _ _ => some [[("x", .int 1)]],
    renderLoads := fun _ _ => some (.int 7),
    hmacSha256B64 := fun secret msg => secret ++ "#" ++ msg,
    settingsUrl := "", settingsHeaders := [],
    attempt := fun _ => .response true "ok" }

/-- Shape of the loop when attempt 0 succeeds. -/
theorem loop_shape_s (att : Nat → Attempt) (b : String)
    (h0 : att 0 = .response true b) :
    webhookLoop att = ⟨[some b], [], 1, .success b⟩ := by
  simp [webhookLoop, loopGo, h0]

/-- Shape of the loop when attempt 0 raises a transport exception: the
`log_request` call in the `except` branch references the never-assigned
local `r`, so the job aborts after a single attempt with no log written. -/
theorem loop_shape_t (att : Nat → Attempt) (e : String)
    (h0 : att 0 = .transportError e) :
    webhookLoop att = ⟨[], [], 1, .raised .unboundLocalR⟩ := by
  simp [webhookLoop, loopGo, h0]

/-- Shape of the loop: failing status then success. -/
theorem loop_shape_fs (att : Nat → Attempt) (b0 b1 : String)
    (h0 : att 0 = .response false b0) (h1 : att 1 = .response true b1) :
    webhookLoop att = ⟨[none, some b1], [1], 2, .success b1⟩ := by
  simp [webhookLoop, loopGo, h0, h1]

/-- Shape of the loop: two failing statuses then success. -/
theorem loop_shape_ffs (att : Nat → Attempt) (b0 b1 b2 : String)
    (h0 : att 0 = .response false b0) (h1 : att 1 = .response false b1)
    (h2 : att 2 = .response true b2) :
    webhookLoop att = ⟨[none, none, some b2], [1, 4], 3, .success b2⟩ := by
  simp [webhookLoop, loopGo, h0, h1, h2]

/-- Shape of the loop: three failing statuses; the third `HTTPError` is
re-raised after a final sleep. -/
theorem loop_shape_fff (att : Nat → Attempt) (b0 b1 b2 : String)
    (h0 : att 0 = .response false b0) (h1 : att 1 = .response false b1)
    (h2 : att 2 = .response false b2) :
    webhookLoop att = ⟨[none, none, none], [1, 4, 7], 3, .raised (.httpError b2)⟩ := by
  simp [webhookLoop, loopGo, h0, h1, h2]

/-- Shape of the loop: two failing statuses then a transport exception,
logged against the stale (falsy) response of attempt 1. -/
theorem loop_shape_fft (att : Nat → Attempt) (b0 b1 e2 : String)
    (h0 : att 0 = .response false b0) (h1 : att 1 = .response false b1)
    (h2 : att 2 = .transportError e2) :
    webhookLoop att = ⟨[none, none, none], [1, 4, 7], 3, .raised (.transport e2)⟩ := by
  simp [webhookLoop, loopGo, h0, h1, h2]

/-- Shape of the loop: failing status, transport exception (logged against
the stale response of attempt 0), then success. -/
theorem loop_shape_fts (att : Nat → Attempt) (b0 e1 b2 : String)
    (h0 : att 0 = .response false b0) (h1 : att 1 = .transportError e1)
    (h2 : att 2 = .response true b2) :
    webhookLoop att = ⟨[none, none, some b2], [1, 4], 3, .success b2⟩ := by
  simp [webhookLoop, loopGo, h0, h1, h2]

/-- Shape of the loop: failing status, transport exception, failing status. -/
theorem loop_shape_ftf (att : Nat → Attempt) (b0 e1 b2 : String)
    (h0 : att 0 = .response false b0) (h1 : att 1 = .transportError e1)
    (h2 : att 2 = .response false b2) :
    webhookLoop att = ⟨[none, none, none], [1, 4, 7], 3, .raised (.httpError b2)⟩ := by
  simp [webhookLoop, loopGo, h0, h1, h2]

/-- Shape of the loop: failing status then two transport exceptions; the
last transport exception is re-raised. -/
theorem loop_shape_ftt (att : Nat → Attempt) (b0 e1 e2 : String)
    (h0 : att 0 = .response false b0) (h1 : att 1 = .transportError e1)
    (h2 : att 2 = .transportError e2) :
    webhookLoop att = ⟨[none, none, none], [1, 4, 7], 3, .raised (.transport e2)⟩ := by
  simp [webhookLoop, loopGo, h0, h1, h2]

/-- The retry loop issues at most three HTTP attempts. -/
theorem webhookLoop_attempts_le_three (att : Nat → Attempt) :
    (webhookLoop att).attempts ≤ 3 := by
  cases h0 : att 0 with
  | response ok0 b0 =>
    cases ok0 with
    | true => simp [loop_shape_s att b0 h0]
    | false =>
      cases h1 : att 1 with
      | response ok1 b1 =>
        cases ok1 with
        | true => simp [loop_shape_fs att b0 b1 h0 h1]
        | false =>
          cases h2 : att 2 with
          | response ok2 b2 =>
            cases ok2 with
            | true => simp [loop_shape_ffs att b0 b1 b2 h0 h1 h2]
            | false => simp [loop_shape_fff att b0 b1 b2 h0 h1 h2]
          | transportError e2 => simp [loop_shape_fft att b0 b1 e2 h0 h1 h2]
      | transportError e1 =>
        cases h2 : att 2 with
        | response ok2 b2 =>
          cases ok2 with
          | true => simp [loop_shape_fts att b0 e1 b2 h0 h1 h2]
          | false => simp [loop_shape_ftf att b0 e1 b2 h0 h1 h2]
        | transportError e2 => simp [loop_shape_ftt att b0 e1 e2 h0 h1 h2]
  | transportError e0 => simp [loop_shape_t att e0 h0]

/-- The first attempt whose response passes `raise_for_status` breaks out of
the loop immediately: the loop ends successfully right after it. -/
theorem webhookLoop_first_success (att : Nat → Attempt) (i : Nat) (b : String)
    (hi : i < (webhookLoop att).attempts) (hs : att i = .response true b) :
    (webhookLoop att).exit = .success b ∧ (webhookLoop att).attempts = i + 1 := by
  cases h0 : att 0 with
  | response ok0 b0 =>
    cases ok0 with
    | true =>
      have hi' : i < 1 := by rw [loop_shape_s att b0 h0] at hi; exact hi
      interval_cases i
      rw [h0] at hs; simp only [Attempt.response.injEq] at hs
      rw [loop_shape_s att b0 h0]; simp [hs.2]
    | false =>
      cases h1 : att 1 with
      | response ok1 b1 =>
        cases ok1 with
        | true =>
          have hi' : i < 2 := by rw [loop_shape_fs att b0 b1 h0 h1] at hi; exact hi
          interval_cases i
          · rw [h0] at hs; simp at hs
          · rw [h1] at hs; simp only [Attempt.response.injEq] at hs
            rw [loop_shape_fs att b0 b1 h0 h1]; simp [hs.2]
        | false =>
          cases h2 : att 2 with
          | response ok2 b2 =>
            cases ok2 with
            | true =>
              have hi' : i < 3 := by
                rw [loop_shape_ffs att b0 b1 b2 h0 h1 h2] at hi; exact hi
              interval_cases i
              · rw [h0] at hs; simp at hs
              · rw [h1] at hs; simp at hs
              · rw [h2] at hs; simp only [Attempt.response.injEq] at hs
                rw [loop_shape_ffs att b0 b1 b2 h0 h1 h2]; simp [hs.2]
            | false =>
              have hi' : i < 3 := by
                rw [loop_shape_fff att b0 b1 b2 h0 h1 h2] at hi; exact hi
              interval_cases i
              · rw [h0] at hs; simp at hs
              · rw [h1] at hs; simp at hs
              · rw [h2] at hs; simp at hs
          | transportError e2 =>
            have hi' : i < 3 := by
              rw [loop_shape_fft att b0 b1 e2 h0 h1 h2] at hi; exact hi
            interval_cases i
            · rw [h0] at hs; simp at hs
            · rw [h1] at hs; simp at hs
            · rw [h2] at hs; simp at hs
      | transportError e1 =>
        cases h2 : att 2 with
        | response ok2 b2 =>
          cases ok2 with
          | true =>
            have hi' : i < 3 := by
              rw [loop_shape_fts att b0 e1 b2 h0 h1 h2] at hi; exact hi
            interval_cases i
            · rw [h0] at hs; simp at hs
            · rw [h1] at hs; simp at hs
            · rw [h2] at hs; simp only [Attempt.response.injEq] at hs
              rw [loop_shape_fts att b0 e1 b2 h0 h1 h2]; simp [hs.2]
          | false =>
            have hi' : i < 3 := by
              rw [loop_shape_ftf att b0 e1 b2 h0 h1 h2] at hi; exact hi
            interval_cases i
            · rw [h0] at hs; simp at hs
            · rw [h1] at hs; simp at hs
            · rw [h2] at hs; simp at hs
        | transportError e2 =>
          have hi' : i < 3 := by
            rw [loop_shape_ftt att b0 e1 e2 h0 h1 h2] at hi; exact hi
          interval_cases i
          · rw [h0] at hs; simp at hs
          · rw [h1] at hs; simp at hs
          · rw [h2] at hs; simp at hs
  | transportError e0 =>
    have hi' : i < 1 := by rw [loop_shape_t att e0 h0] at hi; exact hi
    interval_cases i
    rw [h0] at hs; simp at hs

/-- When all three attempts were made and none succeeded, the loop re-raises
the exception of the third attempt. -/
theorem webhookLoop_exhausted (att : Nat → Attempt)
    (h3 : (webhookLoop att).attempts = 3)
    (hf : ∀ j, j < 3 → attemptOk (att j) = false) :
    (webhookLoop att).exit = .raised (attemptErr (att 2)) := by
  cases h0 : att 0 with
  | response ok0 b0 =>
    cases ok0 with
    | true => rw [loop_shape_s att b0 h0] at h3; simp at h3
    | false =>
      cases h1 : att 1 with
      | response ok1 b1 =>
        cases ok1 with
        | true => rw [loop_shape_fs att b0 b1 h0 h1] at h3; simp at h3
        | false =>
          cases h2 : att 2 with
          | response ok2 b2 =>
            cases ok2 with
            | true =>
              have := hf 2 (by omega); rw [h2] at this; simp [attemptOk] at this
            | false =>
              rw [loop_shape_fff att b0 b1 b2 h0 h1 h2]; rfl
          | transportError e2 =>
            rw [loop_shape_fft att b0 b1 e2 h0 h1 h2]; rfl
      | transportError e1 =>
        cases h2 : att 2 with
        | response ok2 b2 =>
          cases ok2 with
          | true =>
            have := hf 2 (by omega); rw [h2] at this; simp [attemptOk] at this
          | false =>
            rw [loop_shape_ftf att b0 e1 b2 h0 h1 h2]; rfl
        | transportError e2 =>
          rw [loop_shape_ftt att b0 e1 e2 h0 h1 h2]; rfl
  | transportError e0 => rw [loop_shape_t att e0 h0] at h3; simp at h3

/-- Between consecutive attempts of one job, the sleep after failed attempt
`j` lasts `3 * j + 1` time units. -/
theorem webhookLoop_backoff (att : Nat → Attempt) (j : Nat)
    (h : j + 1 < (webhookLoop att).attempts) :
    (webhookLoop att).sleeps.get? j = some (3 * j + 1) := by
  cases h0 : att 0 with
  | response ok0 b0 =>
    cases ok0 with
    | true =>
      rw [loop_shape_s att b0 h0] at h ⊢
      have h' : j + 1 < 1 := h
      omega
    | false =>
      cases h1 : att 1 with
      | response ok1 b1 =>
        cases ok1 with
        | true =>
          rw [loop_shape_fs att b0 b1 h0 h1] at h ⊢
          have h' : j + 1 < 2 := h
          have hj : j = 0 := by omega
          subst hj; rfl
        | false =>
          cases h2 : att 2 with
          | response ok2 b2 =>
            cases ok2 with
            | true =>
              rw [loop_shape_ffs att b0 b1 b2 h0 h1 h2] at h ⊢
              have h' : j + 1 < 3 := h
              have hj : j < 2 := by omega
              interval_cases j <;> rfl
            | false =>
              rw [loop_shape_fff att b0 b1 b2 h0 h1 h2] at h ⊢
              have h' : j + 1 < 3 := h
              have hj : j < 2 := by omega
              interval_cases j <;> rfl
          | transportError e2 =>
            rw [loop_shape_fft att b0 b1 e2 h0 h1 h2] at h ⊢
            have h' : j + 1 < 3 := h
            have hj : j < 2 := by omega
            interval_cases j <;> rfl
      | transportError e1 =>
        cases h2 : att 2 with
        | response ok2 b2 =>
          cases ok2 with
          | true =>
            rw [loop_shape_fts att b0 e1 b2 h0 h1 h2] at h ⊢
            have h' : j + 1 < 3 := h
            have hj : j < 2 := by omega
            interval_cases j <;> rfl
          | false =>
            rw [loop_shape_ftf att b0 e1 b2 h0 h1 h2] at h ⊢
            have h' : j + 1 < 3 := h
            have hj : j < 2 := by omega
            interval_cases j <;> rfl
        | transportError e2 =>
          rw [loop_shape_ftt att b0 e1 e2 h0 h1 h2] at h ⊢
          have h' : j + 1 < 3 := h
          have hj : j < 2 := by omega
          interval_cases j <;> rfl
  | transportError e0 =>
    rw [loop_shape_t att e0 h0] at h ⊢
    have h' : j + 1 < 1 := h
    omega

/-- Members of a dict after `d[k] = v` are the new pair or old members. -/
theorem mem_dictSet {hs : List (String × String)} {k v : String}
    {kv : String × String} (h : kv ∈ dictSet hs k v) :
    kv = (k, v) ∨ kv ∈ hs := by
  unfold dictSet at h
  split at h
  · obtain ⟨kv0, hkv0, heq⟩ := List.mem_map.mp h
    by_cases hk : kv0.1 == k
    · left; rw [← heq]; simp [hk]
    · right
      rw [← heq]
      simpa [hk] using hkv0
  · rcases List.mem_append.mp h with h' | h'
    · right; exact h'
    · left; simpa using h'

/-- Keys already present in a dict survive `d[k] = v`. -/
theorem mem_keys_dictSet {hs : List (String × String)} {k0 v0 k : String}
    (h : k ∈ hs.map Prod.fst) : k ∈ (dictSet hs k0 v0).map Prod.fst := by
  unfold dictSet
  split
  · obtain ⟨kv, hkv, heq⟩ := List.mem_map.mp h
    refine List.mem_map.mpr ⟨if kv.1 == k0 then (k0, v0) else kv, ?_, ?_⟩
    · exact List.mem_map.mpr ⟨kv, hkv, rfl⟩
    · by_cases hk : (kv.1 == k0) = true
      · rw [if_pos hk]
        have hkk : kv.1 = k0 := by simpa using hk
        show k0 = k
        rw [← hkk]
        exact heq
      · rw [if_neg hk]
        exact heq
  · exact List.mem_map.mpr (by
      obtain ⟨kv, hkv, heq⟩ := List.mem_map.mp h
      exact ⟨kv, List.mem_append_left _ hkv, heq⟩)

/-- Provenance of the header loops: every entry of the folded dict comes
from the initial dict or from a valid row of the folded list. -/
theorem mem_applyEntries {es : List HeaderEntry} {hs : List (String × String)}
    {kv : String × String} (h : kv ∈ applyEntries hs es) :
    kv ∈ hs ∨ ∃ e ∈ es, entryKV e = some kv := by
  induction es generalizing hs with
  | nil =>
    left
    simpa [applyEntries] using h
  | cons e es ih =>
    have h' : kv ∈ applyEntries
        (match entryKV e with
         | some kv0 => dictSet hs kv0.1 kv0.2
         | none => hs) es := by
      simpa [applyEntries, List.foldl_cons] using h
    rcases ih h' with hmem | ⟨e', he', hk⟩
    · cases hek : entryKV e with
      | none => rw [hek] at hmem; exact Or.inl hmem
      | some kv0 =>
        rw [hek] at hmem
        rcases mem_dictSet hmem with heq | hmem'
        · right
          refine ⟨e, List.mem_cons_self e es, ?_⟩
          rw [hek, heq]
        · exact Or.inl hmem'
    · exact Or.inr ⟨e', List.mem_cons_of_mem _ he', hk⟩

/-- Keys of the initial dict survive the header loops. -/
theorem mem_keys_applyEntries {es : List HeaderEntry} {hs : List (String × String)}
    {k : String} (h : k ∈ hs.map Prod.fst) :
    k ∈ (applyEntries hs es).map Prod.fst := by
  induction es generalizing hs with
  | nil => simpa [applyEntries] using h
  | cons e es ih =>
    have : k ∈ (match entryKV e with
        | some kv0 => dictSet hs kv0.1 kv0.2
        | none => hs).map Prod.fst := by
      cases entryKV e with
      | none => exact h
      | some kv0 => exact mem_keys_dictSet h
    simpa [applyEntries, List.foldl_cons] using ih this

/-- The signature block, when it does not raise, produces exactly the
singleton dict with the signature header. -/
theorem signatureBase_shape {w : Webhook} {env : Env}
    {hs0 : List (String × String)} (h : signatureBase w env = some hs0) :
    ∃ sig, hs0 = [(WEBHOOK_SECRET_HEADER, sig)] := by
  unfold signatureBase at h
  split at h
  · exact absurd h (by simp)
  · split at h
    · exact absurd h (by simp)
    · injection h with h
      subst h
      exact ⟨_, rfl⟩

/-- The number of producer invocations `get_webhook_headers` consumes is 1
when security is enabled, else 0. -/
theorem get_webhook_headers_calls (w : Webhook) (env : Env) :
    (get_webhook_headers w env).2 = if w.enable_security then 1 else 0 := by
  unfold get_webhook_headers
  cases hsec : w.enable_security with
  | false => simp; split <;> rfl
  | true =>
    simp only [if_pos]
    cases signatureBase w env with
    | none => rfl
    | some hs => simp; split <;> rfl

/-- When security is disabled, `get_webhook_headers` cannot raise. -/
theorem headers_some_of_no_security (w : Webhook) (env : Env)
    (h : w.enable_security = false) :
    ∃ hs, (get_webhook_headers w env).1 = some hs := by
  unfold get_webhook_headers
  rw [h]
  simp only [Bool.false_eq_true, if_neg, ite_false]
  split
  · exact ⟨_, rfl⟩
  · exact ⟨_, rfl⟩

/-- Producer invocations of one job: the header phase's count, plus one
body-phase invocation unless header resolution raised. -/
theorem enqueue_producerCalls_eq (w : Webhook) (env : Env) :
    (enqueue_bulk_webhook w env).producerCalls =
      match (get_webhook_headers w env).1 with
      | none => (get_webhook_headers w env).2
      | some _ => (get_webhook_headers w env).2 + 1 := by
  unfold enqueue_bulk_webhook
  split
  next calls heq => rw [heq]
  next headers hcalls heq =>
    rw [heq]
    split
    · rfl
    · split
      · rfl
      · rfl

/-- When header resolution does not raise, a job performs exactly one more
producer invocation than the header phase did. -/
theorem enqueue_producerCalls_of_headers_some (w : Webhook) (env : Env)
    (hs : List (String × String)) (h : (get_webhook_headers w env).1 = some hs) :
    (enqueue_bulk_webhook w env).producerCalls = (get_webhook_headers w env).2 + 1 := by
  rw [enqueue_producerCalls_eq, h]

/-- A finished job made at most three HTTP attempts. -/
theorem job_attempts_le (w : Webhook) (env : Env) :
    jobHttpAttempts (enqueue_bulk_webhook w env) ≤ 3 := by
  unfold enqueue_bulk_webhook
  split
  next calls heq => show (0 : Nat) ≤ 3; omega
  next headers hcalls heq =>
    split
    next e heq2 => show (0 : Nat) ≤ 3; omega
    next data heq2 =>
      split
      · show (0 : Nat) ≤ 3; omega
      · show (webhookLoop env.attempt).attempts ≤ 3
        exact webhookLoop_attempts_le_three env.attempt

/-- When security is enabled and header resolution does not raise, the
resolved mapping contains the fixed signature header name. -/
theorem headers_contain_secret_key (w : Webhook) (env : Env)
    (hs : List (String × String)) (hsec : w.enable_security = true)
    (h : (get_webhook_headers w env).1 = some hs) :
    ∃ v, (WEBHOOK_SECRET_HEADER, v) ∈ hs := by
  unfold get_webhook_headers at h
  rw [hsec] at h
  simp only [if_pos] at h
  cases hb : signatureBase w env with
  | none => rw [hb] at h; simp at h
  | some hs0 =>
    rw [hb] at h
    obtain ⟨sig, rfl⟩ := signatureBase_shape hb
    have hkey : WEBHOOK_SECRET_HEADER ∈
        ([(WEBHOOK_SECRET_HEADER, sig)]).map Prod.fst := by simp
    have h' : (if (!w.webhook_headers.isEmpty) = true
        then (some (applyEntries [(WEBHOOK_SECRET_HEADER, sig)] w.webhook_headers), 1)
        else (some (applyEntries [(WEBHOOK_SECRET_HEADER, sig)] env.settingsHeaders), 1)).1
        = some hs := h
    split at h'
    all_goals
      simp only [Option.some.injEq] at h'
      subst h'
      obtain ⟨kv, hkv, hfst⟩ := List.mem_map.mp (mem_keys_applyEntries hkey)
      obtain ⟨k1, v1⟩ := kv
      simp only at hfst
      subst hfst
      exact ⟨v1, hkv⟩

/-- Claim C8: header resolution is exclusive — when the config's own header
list is non-empty every resolved entry is the signature header or comes from
a valid config row (global settings rows never appear), and when it is empty
every resolved entry is the signature header or comes from a valid global
settings row; rows with a missing (or empty) key or value are skipped, since
only rows with `entryKV e = some kv` contribute. -/
theorem c8_header_exclusivity (w : Webhook) (env : Env)
    (hs : List (String × String)) (h : (get_webhook_headers w env).1 = some hs) :
    (w.webhook_headers ≠ [] →
      ∀ kv ∈ hs, (w.enable_security = true ∧ kv.1 = WEBHOOK_SECRET_HEADER)
        ∨ ∃ e ∈ w.webhook_headers, entryKV e = some kv)
    ∧ (w.webhook_headers = [] →
      ∀ kv ∈ hs, (w.enable_security = true ∧ kv.1 = WEBHOOK_SECRET_HEADER)
        ∨ ∃ e ∈ env.settingsHeaders, entryKV e = some kv) := by
  unfold get_webhook_headers at h
  cases hsec : w.enable_security with
  | false =>
    rw [hsec] at h
    have h' : (if (!w.webhook_headers.isEmpty) = true
        then (some (applyEntries [] w.webhook_headers), 0)
        else (some (applyEntries [] env.settingsHeaders), 0)).1 = some hs := h
    split at h'
    next hcond =>
      simp only [Option.some.injEq] at h'
      subst h'
      constructor
      · intro _ kv hkv
        rcases mem_applyEntries hkv with h0 | hex
        · simp at h0
        · exact Or.inr hex
      · intro hnil
        rw [hnil] at hcond
        simp at hcond
    next hcond =>
      simp only [Option.some.injEq] at h'
      subst h'
      constructor
      · intro hne kv hkv
        exfalso
        apply hne
        have hie : w.webhook_headers.isEmpty = true := by
          cases hie2 : w.webhook_headers.isEmpty
          · rw [hie2] at hcond; simp at hcond
          · rfl
        exact List.isEmpty_iff.mp hie
      · intro _ kv hkv
        rcases mem_applyEntries hkv with h0 | hex
        · simp at h0
        · exact Or.inr hex
  | true =>
    rw [hsec] at h
    simp only [if_pos] at h
    cases hb : signatureBase w env with
    | none => rw [hb] at h; simp at h
    | some hs0 =>
      rw [hb] at h
      obtain ⟨sig, rfl⟩ := signatureBase_shape hb
      have h' : (if (!w.webhook_headers.isEmpty) = true
          then (some (applyEntries [(WEBHOOK_SECRET_HEADER, sig)] w.webhook_headers), 1)
          else (some (applyEntries [(WEBHOOK_SECRET_HEADER, sig)] env.settingsHeaders), 1)).1
          = some hs := h
      split at h'
      next hcond =>
        simp only [Option.some.injEq] at h'
        subst h'
        constructor
        · intro _ kv hkv
          rcases mem_applyEntries hkv with h0 | hex
          · left
            rcases List.mem_singleton.mp h0 with rfl
            exact ⟨rfl, rfl⟩
          · exact Or.inr hex
        · intro hnil
          rw [hnil] at hcond
          simp at hcond
      next hcond =>
        simp only [Option.some.injEq] at h'
        subst h'
        constructor
        · intro hne kv hkv
          exfalso
          apply hne
          have hie : w.webhook_headers.isEmpty = true := by
            cases hie2 : w.webhook_headers.isEmpty
            · rw [hie2] at hcond; simp at hcond
            · rfl
          exact List.isEmpty_iff.mp hie
        · intro _ kv hkv
          rcases mem_applyEntries hkv with h0 | hex
          · left
            rcases List.mem_singleton.mp h0 with rfl
            exact ⟨rfl, rfl⟩
          · exact Or.inr hex

/-- Claim C1 (code bug): for a config with no template whose Method producer
returns the non-empty record list with a=1, the job transmits nothing at
all — `get_webhook_data` returns the initial empty dict (`data = {}`),
which is falsy, because the computed `data_list` is only used inside the
template branch — instead of sending those records serialized as JSON. -/
theorem c1_no_template_sends_nothing :
    (enqueue_bulk_webhook wNoTemplate envMethodA1).outcome = .noData
    ∧ get_webhook_data wNoTemplate envMethodA1 0 = .ok (some (.dict [])) :=
  ⟨rfl, rfl⟩

/-- Claim C2 (code bug): when the first HTTP attempt raises a transport
exception, the `except` branch calls `log_request(url, headers, data, r)`
with `r` never assigned, so the attempt is made but no RequestLog row is
written and the job aborts with an unbound-local error instead of retrying
or logging with an absent response field. -/
theorem c2_transport_error_logging_crash :
    (webhookLoop attConnRefused).attempts = 1
    ∧ (webhookLoop attConnRefused).logs = []
    ∧ (webhookLoop attConnRefused).exit = .raised .unboundLocalR :=
  ⟨rfl, rfl, rfl⟩

/-- Claim C3 (code bug): with security enabled, the signature is the HMAC of
`json.dumps` applied to a payload produced by a separate, earlier
`get_webhook_data` call inside `get_webhook_headers` (serialized without
`default=str`), not of the transmitted body bytes: with a producer whose
two invocations return a=1 and then a=2, the sent signature differs from
the HMAC of the sent body. -/
theorem c3_signature_not_over_sent_bytes :
    sentHeaderSig (enqueue_bulk_webhook wSigned envTwoCalls)
      = some "HMAC-SHA256-B64(sec,[\x7b\"a\": 1\x7d])"
    ∧ sentBody (enqueue_bulk_webhook wSigned envTwoCalls) = some "[\x7b\"a\": 2\x7d]"
    ∧ sentHeaderSig (enqueue_bulk_webhook wSigned envTwoCalls)
      ≠ some (envTwoCalls.hmacSha256B64 "sec" "[\x7b\"a\": 2\x7d]") :=
  ⟨rfl, rfl, by decide⟩

/-- Claim C4 (counterexample): a security-enabled delivery job invokes the
payload producer more than once. -/
theorem c4_counterexample :
    ¬ ((enqueue_bulk_webhook wSigned envTwoCalls).producerCalls ≤ 1) := by
  decide

/-- Claim C4 (amended): each delivery job invokes the payload producer at
most twice — exactly once when security is disabled, and a second, separate
invocation feeds the signature when security is enabled — so the signing
payload and the body payload come from distinct productions. -/
theorem c4_amended_producer_calls (w : Webhook) (env : Env) :
    (enqueue_bulk_webhook w env).producerCalls ≤ 2
    ∧ (w.enable_security = false → (enqueue_bulk_webhook w env).producerCalls = 1)
    ∧ (w.enable_security = true → 1 ≤ (enqueue_bulk_webhook w env).producerCalls) := by
  have he := enqueue_producerCalls_eq w env
  have hc := get_webhook_headers_calls w env
  refine ⟨?_, ?_, ?_⟩
  · rw [he]
    cases h1 : (get_webhook_headers w env).1 with
    | none =>
      show (get_webhook_headers w env).2 ≤ 2
      rw [hc]; split <;> omega
    | some hs =>
      show (get_webhook_headers w env).2 + 1 ≤ 2
      rw [hc]; split <;> omega
  · intro hsec
    obtain ⟨hs, h1⟩ := headers_some_of_no_security w env hsec
    rw [enqueue_producerCalls_of_headers_some w env hs h1, hc, hsec]
    simp
  · intro hsec
    rw [he]
    cases h1 : (get_webhook_headers w env).1 with
    | none =>
      show 1 ≤ (get_webhook_headers w env).2
      rw [hc, hsec]; simp
    | some hs =>
      show 1 ≤ (get_webhook_headers w env).2 + 1
      omega

/-- Claim C4 (amended, witness): a concrete security-disabled job performs
exactly one producer invocation. -/
theorem c4_amended_witness :
    (enqueue_bulk_webhook wNoTemplate envMethodA1).producerCalls = 1 :=
  (c4_amended_producer_calls wNoTemplate envMethodA1).2.1 rfl

/-- Claim C5: every delivery job makes at most 3 HTTP attempts; the first
attempt whose response passes `raise_for_status` exits the loop immediately
with no further attempts; and when all 3 attempts were made and none
succeeded, the exception of the last (3rd) attempt is re-raised. -/
theorem c5_retry_budget :
    (∀ w env, jobHttpAttempts (enqueue_bulk_webhook w env) ≤ 3)
    ∧ ∀ att : Nat → Attempt,
        (webhookLoop att).attempts ≤ 3
        ∧ (∀ i b, i < (webhookLoop att).attempts → att i = .response true b →
            (webhookLoop att).exit = .success b ∧ (webhookLoop att).attempts = i + 1)
        ∧ ((webhookLoop att).attempts = 3 →
            (∀ j, j < 3 → attemptOk (att j) = false) →
            (webhookLoop att).exit = .raised (attemptErr (att 2))) :=
  ⟨job_attempts_le, fun att =>
    ⟨webhookLoop_attempts_le_three att,
     webhookLoop_first_success att,
     webhookLoop_exhausted att⟩⟩

/-- Claim C5 (witness): with a failing status on every attempt, three
attempts are made and the loop re-raises the third attempt's HTTPError. -/
theorem c5_retry_budget_witness :
    (webhookLoop attAll500).attempts = 3
    ∧ (webhookLoop attAll500).exit = .raised (.httpError "e") :=
  ⟨rfl, (c5_retry_budget.2 attAll500).2.2 rfl (fun _ _ => rfl)⟩

/-- Claim C6: between consecutive HTTP attempts of one job, the worker
backs off for `3 * j + 1` time units after failed attempt `j` (so delays
of 1 and 4 time units separate the three attempts). -/
theorem c6_backoff (att : Nat → Attempt) (j : Nat)
    (h : j + 1 < (webhookLoop att).attempts) :
    (webhookLoop att).sleeps.get? j = some (3 * j + 1) :=
  webhookLoop_backoff att j h

/-- Claim C6 (witness): with HTTP 500 on the first two attempts and success
on the third, the observed delays between attempts are 1 and 4. -/
theorem c6_backoff_witness :
    (webhookLoop attTwo500).sleeps.get? 0 = some 1
    ∧ (webhookLoop attTwo500).sleeps.get? 1 = some 4 :=
  ⟨c6_backoff attTwo500 0 (by decide), c6_backoff attTwo500 1 (by decide)⟩

/-- Claim C7 (counterexample): the signature header name is not
`X-Webhook-Signature`. -/
theorem c7_counterexample : WEBHOOK_SECRET_HEADER ≠ "X-Webhook-Signature" := by
  decide

/-- Claim C7 (amended): whenever the security flag is set and header
resolution does not raise, the signature is sent under the fixed,
case-sensitive header name `X-Frappe-Webhook-Signature`. -/
theorem c7_amended_signature_header_name (w : Webhook) (env : Env)
    (hs : List (String × String)) (hsec : w.enable_security = true)
    (h : (get_webhook_headers w env).1 = some hs) :
    WEBHOOK_SECRET_HEADER = "X-Frappe-Webhook-Signature"
    ∧ ∃ v, (WEBHOOK_SECRET_HEADER, v) ∈ hs :=
  ⟨rfl, headers_contain_secret_key w env hs hsec h⟩

/-- Claim C7 (amended, witness): a concrete security-enabled config resolves
to a header mapping containing the signature header name. -/
theorem c7_amended_witness :
    WEBHOOK_SECRET_HEADER = "X-Frappe-Webhook-Signature"
    ∧ ∃ v, (WEBHOOK_SECRET_HEADER, v) ∈ [(WEBHOOK_SECRET_HEADER, "k#7")] :=
  c7_amended_signature_header_name wSecOnly envSecOnly
    [(WEBHOOK_SECRET_HEADER, "k#7")] rfl (by decide)

/-- Claim C8 (witness): a concrete config with its own header rows resolves
header ("A", "1") from one of its own rows, not from global settings. -/
theorem c8_header_exclusivity_witness :
    (wOwnHeaders.enable_security = true ∧ ("A", "1").1 = WEBHOOK_SECRET_HEADER)
    ∨ ∃ e ∈ wOwnHeaders.webhook_headers, entryKV e = some ("A", "1") :=
  (c8_header_exclusivity wOwnHeaders envGlobalHeaders [("A", "1")] rfl).1
    (by decide) ("A", "1") (List.mem_singleton.mpr rfl)

/-- Claim C9 (counterexample): `get_keys` scores an exception type 0 and a
plain value 6, so an exception-type entry does not outscore a plain-value
entry as the claimed ordering requires. -/
theorem c9_counterexample :
    get_keys [("err", .exceptionSubclass), ("val", .plainValue)]
      = [("err", 0), ("val", 6)]
    ∧ ¬ (scoreOf .exceptionSubclass > scoreOf .plainValue) :=
  ⟨by simp +decide [get_keys, get_keys_entry, scoreOf], by decide⟩

/-- Claim C9 (amended): the autocompletion scores are strictly ordered as
module > function/method > type > mapping > plain value > exception type. -/
theorem c9_amended_score_order :
    scoreOf .module > scoreOf .functionOrMethod
    ∧ scoreOf .functionOrMethod > scoreOf .typeClass
    ∧ scoreOf .typeClass > scoreOf (.mapping [])
    ∧ scoreOf (.mapping []) > scoreOf .plainValue
    ∧ scoreOf .plainValue > scoreOf .exceptionSubclass := by
  refine ⟨?_, ?_, ?_, ?_, ?_⟩ <;> decide

/-- Claim C10: in mandatory-filter validation, a required filter whose
supplied value is falsy (0, empty string, false, or absent) triggers the
missing-filters error, whose list contains that filter's label. -/
theorem c10_required_falsy_filter_throws
    (filters : List (String × PyVal)) (metas : List FilterMeta) (m : FilterMeta)
    (hmem : m ∈ metas) (hreqd : m.reqd = true)
    (hfalsy : pyTruthy (lookupFilter filters m.fieldname) = false) :
    ∃ labels, validate_mandatory_fields filters metas = some labels
      ∧ m.label ∈ labels := by
  have hmem' : m.label ∈ metas.filterMap (fun m' =>
      if m'.reqd && !pyTruthy (lookupFilter filters m'.fieldname)
      then some m'.label else none) := by
    refine List.mem_filterMap.mpr ⟨m, hmem, ?_⟩
    rw [hreqd, hfalsy]
    rfl
  refine ⟨_, ?_, hmem'⟩
  unfold validate_mandatory_fields
  have hcond : (!(metas.filterMap (fun m' =>
      if m'.reqd && !pyTruthy (lookupFilter filters m'.fieldname)
      then some m'.label else none)).isEmpty) = true := by
    have hne := List.ne_nil_of_mem hmem'
    simpa [List.isEmpty_iff] using hne
  rw [if_pos hcond]

/-- Claim C10 (witness): a required filter supplied with the falsy value 0
triggers the missing-filters error listing its label. -/
theorem c10_witness :
    ∃ labels, validate_mandatory_fields [("company", .int 0)]
        [⟨"company", "Company", true⟩] = some labels ∧ "Company" ∈ labels :=
  c10_required_falsy_filter_throws [("company", .int 0)]
    [⟨"company", "Company", true⟩] ⟨"company", "Company", true⟩
    (List.mem_singleton.mpr rfl) rfl (by decide)
